import Mathlib

/-!
Shallow embedding of the coffee-shop backend route layer
(`src/Project/03_coffee_shop_full_stack/starter_code/backend/src/api.py`).

JSON request bodies are modelled by the inductive `JVal`; Python truthiness
(`not v`), dict/`in` membership, `dict.get`, `set.difference` over an
iterable, and `dict.items` are modelled by explicit total functions whose
`none` results stand for the Python exceptions (TypeError / AttributeError)
the corresponding operation would raise; an exception that escapes a
handler is turned by the framework into a 500 response, and `abort(n, d)`
is modelled by the `HOut.fail n d` result routed to the registered error
handlers.

The database model (`database/models.py`) is absent from `src/`; the parts
of it the handlers use (the `Drink` row, its `short`/`long` projections,
insert/update/delete, the unique `title` column) are modelled from the
spec, and each such definition carries a doc comment saying so.  The
`recipe` column is stored as serialized text (`json.dumps`) and
deserialized on read; since serialization round-trips, the embedding
stores the structured value itself.
-/

/-- JSON values, as produced by `request.get_json()`.  Object fields keep
their textual order (Python dicts preserve insertion order). -/
inductive JVal where
  | jnull
  | jbool (b : Bool)
  | jnum (n : Int)
  | jstr (s : String)
  | jarr (elems : List JVal)
  | jobj (fields : List (String × JVal))

mutual

/-- Boolean equality on JSON values. -/
def JVal.beq : JVal → JVal → Bool
  | .jnull, .jnull => true
  | .jbool a, .jbool b => a == b
  | .jnum a, .jnum b => a == b
  | .jstr a, .jstr b => a == b
  | .jarr xs, .jarr ys => JVal.beqList xs ys
  | .jobj fs, .jobj gs => JVal.beqFields fs gs
  | _, _ => false

/-- Boolean equality on lists of JSON values. -/
def JVal.beqList : List JVal → List JVal → Bool
  | [], [] => true
  | x :: xs, y :: ys => JVal.beq x y && JVal.beqList xs ys
  | _, _ => false

/-- Boolean equality on JSON object field lists. -/
def JVal.beqFields : List (String × JVal) → List (String × JVal) → Bool
  | [], [] => true
  | (k, v) :: fs, (l, w) :: gs => k == l && (JVal.beq v w && JVal.beqFields fs gs)
  | _, _ => false

end

instance : BEq JVal := ⟨JVal.beq⟩

mutual

theorem JVal.eq_of_beq : (a b : JVal) → JVal.beq a b = true → a = b
  | .jnull, .jnull, _ => rfl
  | .jbool x, .jbool y, h => by
      simp only [JVal.beq, beq_iff_eq] at h; exact congrArg JVal.jbool h
  | .jnum x, .jnum y, h => by
      simp only [JVal.beq, beq_iff_eq] at h; exact congrArg JVal.jnum h
  | .jstr x, .jstr y, h => by
      simp only [JVal.beq, beq_iff_eq] at h; exact congrArg JVal.jstr h
  | .jarr xs, .jarr ys, h => by
      simp only [JVal.beq] at h
      exact congrArg JVal.jarr (JVal.eqList_of_beqList xs ys h)
  | .jobj fs, .jobj gs, h => by
      simp only [JVal.beq] at h
      exact congrArg JVal.jobj (JVal.eqFields_of_beqFields fs gs h)

theorem JVal.eqList_of_beqList : (xs ys : List JVal) → JVal.beqList xs ys = true → xs = ys
  | [], [], _ => rfl
  | x :: xs, y :: ys, h => by
      simp only [JVal.beqList, Bool.and_eq_true] at h
      rw [JVal.eq_of_beq x y h.1, JVal.eqList_of_beqList xs ys h.2]

theorem JVal.eqFields_of_beqFields :
    (fs gs : List (String × JVal)) → JVal.beqFields fs gs = true → fs = gs
  | [], [], _ => rfl
  | (k, v) :: fs, (l, w) :: gs, h => by
      simp only [JVal.beqFields, Bool.and_eq_true, beq_iff_eq] at h
      rw [h.1, JVal.eq_of_beq v w h.2.1, JVal.eqFields_of_beqFields fs gs h.2.2]

end

mutual

theorem JVal.beq_refl : (a : JVal) → JVal.beq a a = true
  | .jnull => rfl
  | .jbool x => by simp [JVal.beq]
  | .jnum x => by simp [JVal.beq]
  | .jstr x => by simp [JVal.beq]
  | .jarr xs => by simp only [JVal.beq]; exact JVal.beqList_refl xs
  | .jobj fs => by simp only [JVal.beq]; exact JVal.beqFields_refl fs

theorem JVal.beqList_refl : (xs : List JVal) → JVal.beqList xs xs = true
  | [] => rfl
  | x :: xs => by
      simp only [JVal.beqList, Bool.and_eq_true]
      exact ⟨JVal.beq_refl x, JVal.beqList_refl xs⟩

theorem JVal.beqFields_refl : (fs : List (String × JVal)) → JVal.beqFields fs fs = true
  | [] => rfl
  | (k, v) :: fs => by
      simp only [JVal.beqFields, Bool.and_eq_true]
      exact ⟨beq_self_eq_true k, JVal.beq_refl v, JVal.beqFields_refl fs⟩

end

instance : LawfulBEq JVal where
  eq_of_beq h := JVal.eq_of_beq _ _ h
  rfl := JVal.beq_refl _

instance : DecidableEq JVal := fun a b => decidable_of_iff ((a == b) = true) beq_iff_eq

namespace JVal

/-- Python truthiness: `bool(v)` for a JSON value.  `None`, `False`, `0`,
the empty string, the empty list and the empty dict are falsy. -/
def pyTruthy : JVal → Bool
  | .jnull => false
  | .jbool b => b
  | .jnum n => n != 0
  | .jstr s => !s.isEmpty
  | .jarr elems => !elems.isEmpty
  | .jobj fields => !fields.isEmpty

end JVal

open JVal

/-- Lookup in a JSON object field list: `dict.get(k)`, with the Python
`None` default for a missing key rendered as `jnull`. -/
def dictGet (fields : List (String × JVal)) (k : String) : JVal :=
  match fields.find? (fun kv => kv.1 == k) with
  | some kv => kv.2
  | none => .jnull

/-- Key membership in a JSON object field list. -/
def dictHas (fields : List (String × JVal)) (k : String) : Bool :=
  (fields.find? (fun kv => kv.1 == k)).isSome

/-- Python `k in v` for a string `k`: key membership for a dict, element
membership for a list, substring test for a string; `none` models the
TypeError raised on numbers, booleans and `None`. -/
def pyContains (v : JVal) (k : String) : Option Bool :=
  match v with
  | .jobj fields => some (dictHas fields k)
  | .jarr elems => some (elems.contains (.jstr k))
  | .jstr s => some ((s.splitOn k).length > 1)
  | _ => none

/-- The strings produced by iterating a JSON value in Python, as consumed
by `set.difference`: the keys of a dict, the string elements of a list
(non-string elements never equal a field name), the one-character strings
of a string; `none` models the TypeError on non-iterables. -/
def pyIterStrings : JVal → Option (List String)
  | .jobj fields => some (fields.map (fun kv => kv.1))
  | .jarr elems =>
      some (elems.filterMap (fun v =>
        match v with
        | .jstr s => some s
        | _ => none))
  | .jstr s => some (s.data.map (fun c => String.mk [c]))
  | _ => none

/-- Python `v.items()`: the key-value pairs of a dict in order; `none`
models the AttributeError raised on any non-dict value. -/
def pyItems : JVal → Option (List (String × JVal))
  | .jobj fields => some fields
  | _ => none

/-- Python subscript `v[k]` for a string key on a dict; handlers only
reach it after `k in v` has succeeded on a dict, so the non-dict and
missing-key cases (which would raise) are rendered as `jnull`. -/
def pySubscript (v : JVal) (k : String) : JVal :=
  match v with
  | .jobj fields => dictGet fields k
  | _ => .jnull

/-- Modelled from the spec: `database/models.py` is absent from `src/`.
One row of the drinks table: `id` integer primary key, `title` unique,
`recipe` stored as serialized structured text (kept structured here, since
`json.dumps` / `json.loads` round-trip). -/
structure Drink where
  id : Nat
  title : JVal
  recipe : JVal
deriving DecidableEq

/-- The drinks table plus the next id the storage engine will assign. -/
structure DB where
  rows : List Drink
  nextId : Nat
deriving DecidableEq

/-- The empty database produced by `db_drop_and_create_all` before any
insert. -/
def emptyDB : DB := { rows := [], nextId := 1 }

namespace Drink

/-- Modelled from the spec: `database/models.py` is absent from `src/`.
The long projection of a row: id, title, and the deserialized recipe. -/
def long (d : Drink) : JVal :=
  .jobj [("id", .jnum (d.id : Int)), ("title", d.title), ("recipe", d.recipe)]

/-- Modelled from the spec: the short projection replaces each recipe
ingredient field `parts` with the placeholder string `pending`. -/
def maskIngredient : JVal → JVal
  | .jobj fields =>
      .jobj (fields.map (fun kv =>
        if kv.1 == "parts" then (kv.1, JVal.jstr "pending") else kv))
  | v => v

/-- Modelled from the spec: `database/models.py` is absent from `src/`.
The short projection of a row: id, title, and the deserialized recipe with
every `parts` value masked to `pending`. -/
def short (d : Drink) : JVal :=
  .jobj [("id", .jnum (d.id : Int)), ("title", d.title),
    ("recipe",
      match d.recipe with
      | .jarr elems => .jarr (elems.map maskIngredient)
      | v => maskIngredient v)]

end Drink

/-- Modelled from the spec: insertion into a list ordered by ascending
id, realizing `Drink.query.order_by(Drink.id)`. -/
def insertById (d : Drink) : List Drink → List Drink
  | [] => [d]
  | e :: es => if d.id ≤ e.id then d :: e :: es else e :: insertById d es

/-- Modelled from the spec: `Drink.query.order_by(Drink.id).all()` sorts
the table rows by ascending id. -/
def sortById : List Drink → List Drink
  | [] => []
  | d :: ds => insertById d (sortById ds)

/-- Modelled from the spec: `Drink.query.filter(Drink.id == i).one_or_none()`;
ids are unique, so the first match is the only one. -/
def DB.findDrink (st : DB) (i : Nat) : Option Drink :=
  st.rows.find? (fun r => r.id == i)

/-- Modelled from the spec: `drink.insert()`.  The `title` column is
unique, so inserting a duplicate title raises IntegrityError (the `error`
branch); otherwise the storage engine assigns the next id. -/
def DB.insertDrink (st : DB) (title recipe : JVal) : Except Unit (DB × Drink) :=
  if st.rows.any (fun r => r.title == title) then
    .error ()
  else
    let d : Drink := { id := st.nextId, title := title, recipe := recipe }
    .ok ({ rows := st.rows ++ [d], nextId := st.nextId + 1 }, d)

/-- Modelled from the spec: `drink.update()` commits the mutated row; the
unique `title` column makes the commit fail (IntegrityError, the `error`
branch) when another row already holds the new title. -/
def DB.commitUpdate (st : DB) (d : Drink) : Except Unit DB :=
  if st.rows.any (fun r => r.id != d.id && r.title == d.title) then
    .error ()
  else
    .ok { st with rows := st.rows.map (fun r => if r.id == d.id then d else r) }

/-- Modelled from the spec: `drink.delete()` removes the row. -/
def DB.deleteDrink (st : DB) (i : Nat) : DB :=
  { st with rows := st.rows.filter (fun r => r.id != i) }

/-- Outcome of a route handler body: a 200 JSON payload, or an
`abort(status, description)` routed to the registered error handlers (an
exception that escapes the handler is `fail 500 none`). -/
inductive HOut where
  | ok (body : JVal)
  | fail (status : Nat) (descr : Option String)
deriving DecidableEq

/-- The required recipe sub-fields, `{'name', 'color', 'parts'}` in the
source.  Python set iteration order is hash-randomized; the embedding
fixes the textual order, which only affects the message when several
sub-fields are missing at once. -/
def requiredRecipeFields : List String := ["name", "color", "parts"]

/-- The recipe-shape check shared verbatim by `create_drink` (api.py lines
84-90) and `update_drink` (lines 129-135): `set.difference` of the
required sub-fields against the iterated recipe value, then a truthiness
pass over `recipe.items()`.  `some out` is the abort the block performs,
`none` means the recipe passed. -/
def recipeCheck (recipe : JVal) : Option HOut :=
  match pyIterStrings recipe with
  | none => some (.fail 500 none)
  | some ks =>
    let missing := requiredRecipeFields.filter (fun f => !ks.contains f)
    if !missing.isEmpty then
      some (.fail 400 (some ("Missing required recipe field(s): " ++
        String.intercalate ", " missing)))
    else
      match pyItems recipe with
      | none => some (.fail 500 none)
      | some its =>
        match its.find? (fun kv => !pyTruthy kv.2) with
        | some kv => some (.fail 400 (some ("Missing required recipe field: " ++ kv.1)))
        | none => none

/-- Handler for `GET /drinks` (api.py lines 29-40): list all drinks in id
order as short projections, aborting 404 when the list is empty. -/
def get_drinks (st : DB) : HOut :=
  let drinks := (sortById st.rows).map Drink.short
  if drinks.length == 0 then
    .fail 404 none
  else
    .ok (.jobj [("success", .jbool true), ("drinks", .jarr drinks)])

/-- Handler for `GET /drinks-detail` (api.py lines 50-62), after the
`requires_auth` guard has admitted the request: list all drinks in id
order as long projections, aborting 404 when the list is empty. -/
def get_drinks_detail (st : DB) : HOut :=
  let drinks := (sortById st.rows).map Drink.long
  if drinks.length == 0 then
    .fail 404 none
  else
    .ok (.jobj [("success", .jbool true), ("drinks", .jarr drinks)])

/-- Handler for `POST /drinks` (api.py lines 73-105), after the guard:
require truthy `title` and `recipe`, run the recipe-shape check, then
insert with the recipe wrapped in a single-element list
(`json.dumps([new_data['recipe']])`).  IntegrityError on a duplicate
title maps to `abort(400, 'Drink may already exist')` (the string in the
source is an f-string with no placeholders).  When `request.get_json()`
returned `None` or a non-object, `body.get(field)` raises AttributeError,
which escapes the handler and becomes a 500. -/
def create_drink (body? : Option JVal) (st : DB) : DB × HOut :=
  match body? with
  | some (.jobj fields) =>
    let titleV := dictGet fields "title"
    if !pyTruthy titleV then
      (st, .fail 400 (some "Missing required field: title"))
    else
      let recipeV := dictGet fields "recipe"
      if !pyTruthy recipeV then
        (st, .fail 400 (some "Missing required field: recipe"))
      else
        match recipeCheck recipeV with
        | some out => (st, out)
        | none =>
          match st.insertDrink titleV (.jarr [recipeV]) with
          | .error _ => (st, .fail 400 (some "Drink may already exist"))
          | .ok (st2, d) =>
            (st2, .ok (.jobj [("success", .jbool true), ("drinks", .jarr [d.long])]))
  | _ => (st, .fail 500 none)

/-- One pass of the loop at api.py lines 124-126:
`if field in body and not body.get(field): abort(400, ...)`.  `none`
means the loop body did not abort for this field; `in` on a number-like
body raises TypeError and `.get` on a non-dict raises AttributeError,
both escaping as 500. -/
def fieldPresenceCheck (body : JVal) (f : String) : Option HOut :=
  match pyContains body f with
  | none => some (.fail 500 none)
  | some false => none
  | some true =>
    match body with
    | .jobj fields =>
        if !pyTruthy (dictGet fields f) then
          some (.fail 400 (some ("A value is required for field: " ++ f)))
        else none
    | _ => some (.fail 500 none)

/-- Handler for `PATCH /drinks/(drink_id)` (api.py lines 118-155), after
the guard: reject supplied-but-falsy `title`/`recipe`, run the
recipe-shape check when `recipe` is present, then look the row up inside
the `try` block.  The `abort(404)` for a missing id sits inside
`try ... except Exception: abort(422)`, and `NotFound` is an `Exception`,
so a missing id actually yields 422.  Supplied fields replace the stored
ones; `recipe` is stored unwrapped (`json.dumps(body['recipe'])`).  A
`None` body makes `'title' in body` raise TypeError, escaping as 500. -/
def update_drink (body? : Option JVal) (drink_id : Nat) (st : DB) : DB × HOut :=
  match body? with
  | none => (st, .fail 500 none)
  | some body =>
    match fieldPresenceCheck body "title" with
    | some out => (st, out)
    | none =>
      match fieldPresenceCheck body "recipe" with
      | some out => (st, out)
      | none =>
        match (if pyContains body "recipe" == some true then
                recipeCheck (pySubscript body "recipe") else none) with
        | some out => (st, out)
        | none =>
          match st.findDrink drink_id with
          | none => (st, .fail 422 none)
          | some drink =>
            let drink :=
              if pyContains body "title" == some true then
                { drink with title := pySubscript body "title" }
              else drink
            let drink :=
              if pyContains body "recipe" == some true then
                { drink with recipe := pySubscript body "recipe" }
              else drink
            match st.commitUpdate drink with
            | .error _ => (st, .fail 422 none)
            | .ok st2 =>
              (st2, .ok (.jobj [("success", .jbool true), ("drinks", .jarr [drink.long])]))

/-- Handler for `DELETE /drinks/(drink_id)` (api.py lines 166-181), after
the guard: here the `abort(404)` is outside the `try` block, so a missing
id does yield 404; an existing row is removed and the response carries
the requested id. -/
def delete_drink (drink_id : Nat) (st : DB) : DB × HOut :=
  match st.findDrink drink_id with
  | none => (st, .fail 404 none)
  | some _ =>
    (st.deleteDrink drink_id,
      .ok (.jobj [("success", .jbool true), ("delete", .jnum (drink_id : Int))]))

/-- The uniform error envelope every registered handler returns. -/
def mkErrorBody (code : Int) (msg : String) : JVal :=
  .jobj [("success", .jbool false), ("error", .jnum code), ("message", .jstr msg)]

/-- Python `error.description or default`: a missing or empty description
falls back to the default message. -/
def pyOrDefault (descr : Option String) (dflt : String) : String :=
  match descr with
  | some s => if s.isEmpty then dflt else s
  | none => dflt

/-- Error handler registered for 422 (api.py lines 186-192). -/
def unprocessable (descr : Option String) : JVal × Nat :=
  (mkErrorBody 422 "unprocessable", 422)

/-- Error handler registered for 404 (api.py lines 204-210). -/
def not_found (descr : Option String) : JVal × Nat :=
  (mkErrorBody 404 "resource not found", 404)

/-- Error handler registered for 400 (api.py lines 215-221). -/
def bad_request (descr : Option String) : JVal × Nat :=
  (mkErrorBody 400 (pyOrDefault descr "bad request"), 400)

/-- Error handler registered for 403 (api.py lines 224-230). -/
def forbidden (descr : Option String) : JVal × Nat :=
  (mkErrorBody 403 (pyOrDefault descr "forbidden"), 403)

/-- Error handler registered for 401 (api.py lines 233-239). -/
def unauthorized (descr : Option String) : JVal × Nat :=
  (mkErrorBody 401 (pyOrDefault descr "unauthorized"), 401)

/-- Error handler registered for 500 (api.py lines 242-248). -/
def server_error (descr : Option String) : JVal × Nat :=
  (mkErrorBody 500 "internal server error", 500)

/-- Dispatch of an aborted status to the registered error handler; `none`
for a status no handler is registered for. -/
def errorResponse (status : Nat) (descr : Option String) : Option (JVal × Nat) :=
  if status = 422 then some (unprocessable descr)
  else if status = 404 then some (not_found descr)
  else if status = 400 then some (bad_request descr)
  else if status = 403 then some (forbidden descr)
  else if status = 401 then some (unauthorized descr)
  else if status = 500 then some (server_error descr)
  else none

/-- Full HTTP response from a handler outcome: 200 with the payload on
success, otherwise the registered error envelope (`none` when no handler
is registered, which the handlers above never produce). -/
def respond : HOut → Option (Nat × JVal)
  | .ok body => some (200, body)
  | .fail status descr =>
      match errorResponse status descr with
      | some (body, code) => some (code, body)
      | none => none

/-! ## Helper lemmas about the validation and storage paths -/

/-- A recipe that is a JSON object with the keys `name`, `color`, `parts`
present and every value truthy passes the shared recipe-shape check. -/
theorem recipeCheck_valid (rfs : List (String × JVal))
    (hn : (rfs.map (fun kv => kv.1)).contains "name" = true)
    (hc : (rfs.map (fun kv => kv.1)).contains "color" = true)
    (hp : (rfs.map (fun kv => kv.1)).contains "parts" = true)
    (hv : ∀ kv ∈ rfs, pyTruthy kv.2 = true) :
    recipeCheck (.jobj rfs) = none := by
  have hfind : rfs.find? (fun kv => !pyTruthy kv.2) = none :=
    List.find?_eq_none.mpr (fun kv hm => by simp [hv kv hm])
  have hn2 : "name" ∈ rfs.map (fun kv => kv.1) := by simpa using hn
  have hc2 : "color" ∈ rfs.map (fun kv => kv.1) := by simpa using hc
  have hp2 : "parts" ∈ rfs.map (fun kv => kv.1) := by simpa using hp
  simp [recipeCheck, pyIterStrings, pyItems, requiredRecipeFields, List.filter,
    hn2, hc2, hp2, hfind]

/-- The success path of `create_drink`: with a truthy title, a valid
object recipe and a fresh title, the handler appends the new row (recipe
wrapped in a single-element list) and returns the long projection. -/
theorem create_drink_success (st : DB) (fields rfs : List (String × JVal))
    (htitle : pyTruthy (dictGet fields "title") = true)
    (hrec : dictGet fields "recipe" = .jobj rfs)
    (hn : (rfs.map (fun kv => kv.1)).contains "name" = true)
    (hc : (rfs.map (fun kv => kv.1)).contains "color" = true)
    (hp : (rfs.map (fun kv => kv.1)).contains "parts" = true)
    (hv : ∀ kv ∈ rfs, pyTruthy kv.2 = true)
    (hfresh : st.rows.any (fun r => r.title == dictGet fields "title") = false) :
    create_drink (some (.jobj fields)) st =
      (⟨st.rows ++ [⟨st.nextId, dictGet fields "title", .jarr [.jobj rfs]⟩], st.nextId + 1⟩,
       .ok (.jobj [("success", .jbool true),
         ("drinks", .jarr [.jobj [("id", .jnum (st.nextId : Int)),
           ("title", dictGet fields "title"), ("recipe", .jarr [.jobj rfs])]])])) := by
  have hne : rfs ≠ [] := by
    intro h
    subst h
    simp at hn
  have htr : pyTruthy (JVal.jobj rfs) = true := by
    simp [pyTruthy, hne]
  simp only [create_drink, hrec, htitle, htr, recipeCheck_valid rfs hn hc hp hv,
    Bool.not_true, Bool.false_eq_true, if_false]
  simp [DB.insertDrink, hfresh, Drink.long]

/-- The row produced by the mutation block at api.py lines 143-147: each
of `title` and `recipe` is replaced exactly when the body supplies it. -/
def applyPatch (d : Drink) (fields : List (String × JVal)) : Drink :=
  let d1 := if dictHas fields "title" then { d with title := dictGet fields "title" } else d
  if dictHas fields "recipe" then { d1 with recipe := dictGet fields "recipe" } else d1

/-- `drink.update()` succeeds when no other row holds the new title, and
replaces the row with matching id. -/
theorem commitUpdate_ok (st : DB) (d : Drink)
    (h : st.rows.any (fun r => r.id != d.id && r.title == d.title) = false) :
    st.commitUpdate d =
      .ok { st with rows := st.rows.map (fun r => if r.id == d.id then d else r) } := by
  simp only [DB.commitUpdate]
  rw [h]
  simp

/-- The success path of `update_drink`: when both presence checks pass,
the recipe-shape check passes whenever a recipe is supplied, the id is
found and the commit does not collide on the unique title, the handler
stores `applyPatch d fields` and returns its long projection. -/
theorem update_drink_success (st : DB) (i : Nat) (d : Drink) (fields : List (String × JVal))
    (hfind : st.findDrink i = some d)
    (ht : fieldPresenceCheck (.jobj fields) "title" = none)
    (hr : fieldPresenceCheck (.jobj fields) "recipe" = none)
    (hrc : dictHas fields "recipe" = true → recipeCheck (dictGet fields "recipe") = none)
    (hcommit : st.rows.any (fun r => r.id != (applyPatch d fields).id &&
        r.title == (applyPatch d fields).title) = false) :
    update_drink (some (.jobj fields)) i st =
      ({ st with rows := st.rows.map (fun r =>
          if r.id == (applyPatch d fields).id then applyPatch d fields else r) },
       .ok (.jobj [("success", .jbool true), ("drinks", .jarr [(applyPatch d fields).long])])) := by
  cases hdr : dictHas fields "recipe" with
  | false =>
    cases hdt : dictHas fields "title" with
    | false =>
      have hap : applyPatch d fields = d := by simp [applyPatch, hdr, hdt]
      rw [hap] at hcommit ⊢
      simp only [update_drink, ht, hr, hfind, pyContains, pySubscript, hdr, hdt]
      simp only [show (some false == some true) = false from rfl, Bool.false_eq_true,
        if_false, reduceCtorEq]
      rw [commitUpdate_ok st d hcommit]
    | true =>
      have hap : applyPatch d fields = { d with title := dictGet fields "title" } := by
        simp [applyPatch, hdr, hdt]
      rw [hap] at hcommit ⊢
      simp only [update_drink, ht, hr, hfind, pyContains, pySubscript, hdr, hdt]
      simp only [show (some false == some true) = false from rfl,
        show (some true == some true) = true from rfl, Bool.false_eq_true,
        if_false, if_true, reduceCtorEq]
      rw [commitUpdate_ok st { d with title := dictGet fields "title" } hcommit]
  | true =>
    cases hdt : dictHas fields "title" with
    | false =>
      have hap : applyPatch d fields = { d with recipe := dictGet fields "recipe" } := by
        simp [applyPatch, hdr, hdt]
      rw [hap] at hcommit ⊢
      simp only [update_drink, ht, hr, hfind, pyContains, pySubscript, hdr, hdt, hrc hdr]
      simp only [show (some false == some true) = false from rfl,
        show (some true == some true) = true from rfl, Bool.false_eq_true,
        if_false, if_true, reduceCtorEq]
      rw [commitUpdate_ok st { d with recipe := dictGet fields "recipe" } hcommit]
    | true =>
      have hap : applyPatch d fields =
          { d with title := dictGet fields "title", recipe := dictGet fields "recipe" } := by
        simp [applyPatch, hdr, hdt]
      rw [hap] at hcommit ⊢
      simp only [update_drink, ht, hr, hfind, pyContains, pySubscript, hdr, hdt, hrc hdr]
      simp only [show (some false == some true) = false from rfl,
        show (some true == some true) = true from rfl, Bool.false_eq_true,
        if_false, if_true, reduceCtorEq]
      rw [commitUpdate_ok st
        { d with title := dictGet fields "title", recipe := dictGet fields "recipe" } hcommit]

/-! ## Concrete sample values used by the witness theorems -/

/-- The field list of a well-formed ingredient object. -/
def sampleIngredientFields : List (String × JVal) :=
  [("name", .jstr "water"), ("color", .jstr "blue"), ("parts", .jnum 1)]

/-- A well-formed ingredient object. -/
def sampleIngredient : JVal := .jobj sampleIngredientFields

/-- A one-row database as produced by a successful create. -/
def sampleDB : DB :=
  ⟨[⟨1, .jstr "water", .jarr [sampleIngredient]⟩], 2⟩

/-- C10: for POST /drinks and PATCH /drinks/(id), when `request.get_json()`
returns `None` the handler's field access on the `None` body raises an
unhandled error, and the response is the 500 envelope, not a 400
validation error. -/
theorem c10_none_body_gives_500 (st : DB) (i : Nat) :
    create_drink none st = (st, .fail 500 none) ∧
    update_drink none i st = (st, .fail 500 none) ∧
    respond (.fail 500 none) = some (500, mkErrorBody 500 "internal server error") :=
  ⟨rfl, rfl, rfl⟩

/-- C2: when the drinks table holds zero rows, GET /drinks and
GET /drinks-detail both abort 404 rather than returning 200 with an empty
drinks array. -/
theorem c2_empty_table_gives_404 (st : DB) (h : st.rows = []) :
    get_drinks st = .fail 404 none ∧ get_drinks_detail st = .fail 404 none := by
  simp [get_drinks, get_drinks_detail, h, sortById]

/-- Witness for C2 at the empty database. -/
theorem c2_empty_table_gives_404_witness :
    emptyDB.rows = [] ∧ get_drinks emptyDB = .fail 404 none ∧
      get_drinks_detail emptyDB = .fail 404 none :=
  ⟨rfl, (c2_empty_table_gives_404 emptyDB rfl).1, (c2_empty_table_gives_404 emptyDB rfl).2⟩

/-- C1 (code bug): a PATCH whose body passes validation but whose id
matches no stored row yields 422, not the 404 the route comment
documents, because `abort(404)` sits inside `try ... except Exception:
abort(422)`; the table is left unchanged. -/
theorem c1_update_missing_id_gives_422 (st : DB) (i : Nat) (fields : List (String × JVal))
    (ht : fieldPresenceCheck (.jobj fields) "title" = none)
    (hr : fieldPresenceCheck (.jobj fields) "recipe" = none)
    (hrc : dictHas fields "recipe" = true → recipeCheck (dictGet fields "recipe") = none)
    (habsent : st.findDrink i = none) :
    update_drink (some (.jobj fields)) i st = (st, .fail 422 none) := by
  cases hdr : dictHas fields "recipe" with
  | false =>
    simp only [update_drink, ht, hr, habsent, pyContains, pySubscript, hdr]
    simp
  | true =>
    simp only [update_drink, ht, hr, habsent, pyContains, pySubscript, hdr, hrc hdr]
    simp

/-- Witness for C1: PATCH /drinks/1 with a valid body on the empty table
yields 422 and leaves the table unchanged. -/
theorem c1_update_missing_id_gives_422_witness :
    update_drink (some (.jobj [("title", .jstr "x")])) 1 emptyDB = (emptyDB, .fail 422 none) :=
  c1_update_missing_id_gives_422 emptyDB 1 [("title", .jstr "x")]
    (by decide) (by decide) (by decide) (by decide)

/-- C7: DELETE of an absent id yields 404 and leaves the table unchanged;
DELETE of a present id removes the row and returns the requested id, and
repeating the DELETE afterwards yields 404 as a no-op. -/
theorem c7_delete_contract (st : DB) (i : Nat) :
    (st.findDrink i = none → delete_drink i st = (st, .fail 404 none)) ∧
    ((st.findDrink i).isSome = true →
      delete_drink i st =
        ({ st with rows := st.rows.filter (fun r => r.id != i) },
         .ok (.jobj [("success", .jbool true), ("delete", .jnum (i : Int))])) ∧
      (delete_drink i st).1.findDrink i = none ∧
      delete_drink i (delete_drink i st).1 = ((delete_drink i st).1, .fail 404 none)) := by
  constructor
  · intro h
    simp [delete_drink, h]
  · intro h
    obtain ⟨d, hd⟩ := Option.isSome_iff_exists.mp h
    have h1 : delete_drink i st =
        ({ st with rows := st.rows.filter (fun r => r.id != i) },
         .ok (.jobj [("success", .jbool true), ("delete", .jnum (i : Int))])) := by
      simp [delete_drink, hd, DB.deleteDrink]
    have h2 : ({ st with rows := st.rows.filter (fun r => r.id != i) } : DB).findDrink i = none := by
      apply List.find?_eq_none.mpr
      intro r hm
      have hr := (List.mem_filter.mp hm).2
      simp at hr ⊢
      exact hr
    refine ⟨h1, ?_, ?_⟩
    · rw [h1]
      exact h2
    · rw [h1]
      simp [delete_drink, h2]

/-- Witness for C7 at the one-row database: a missing id gives 404, the
present id 1 is removed, and the repeated DELETE is a 404 no-op. -/
theorem c7_delete_contract_witness :
    delete_drink 7 sampleDB = (sampleDB, .fail 404 none) ∧
    (delete_drink 1 sampleDB =
      ({ sampleDB with rows := sampleDB.rows.filter (fun r => r.id != 1) },
       .ok (.jobj [("success", .jbool true), ("delete", .jnum (1 : Int))])) ∧
     (delete_drink 1 sampleDB).1.findDrink 1 = none ∧
     delete_drink 1 (delete_drink 1 sampleDB).1 = ((delete_drink 1 sampleDB).1, .fail 404 none)) :=
  ⟨(c7_delete_contract sampleDB 7).1 (by decide),
   (c7_delete_contract sampleDB 1).2 (by decide)⟩

/-- C8: the registered error handlers produce exactly the envelope
success:false, error:status, message:string for the statuses 400, 401,
403, 404, 422 and 500, and no handler is registered for any other
status. -/
theorem c8_error_envelopes (descr : Option String) :
    errorResponse 400 descr = some (mkErrorBody 400 (pyOrDefault descr "bad request"), 400) ∧
    errorResponse 401 descr = some (mkErrorBody 401 (pyOrDefault descr "unauthorized"), 401) ∧
    errorResponse 403 descr = some (mkErrorBody 403 (pyOrDefault descr "forbidden"), 403) ∧
    errorResponse 404 descr = some (mkErrorBody 404 "resource not found", 404) ∧
    errorResponse 422 descr = some (mkErrorBody 422 "unprocessable", 422) ∧
    errorResponse 500 descr = some (mkErrorBody 500 "internal server error", 500) ∧
    (∀ s : Nat, s ∉ [400, 401, 403, 404, 422, 500] → errorResponse s descr = none) := by
  refine ⟨rfl, rfl, rfl, rfl, rfl, rfl, ?_⟩
  intro s hs
  simp only [List.mem_cons, List.not_mem_nil, or_false, not_or] at hs
  obtain ⟨h400, h401, h403, h404, h422, h500⟩ := hs
  simp [errorResponse, h400, h401, h403, h404, h422, h500]

/-- Witness for C8: the 422 handler envelope, and status 418 has no
registered handler. -/
theorem c8_error_envelopes_witness :
    errorResponse 422 none = some (mkErrorBody 422 "unprocessable", 422) ∧
    errorResponse 418 none = none :=
  ⟨(c8_error_envelopes none).2.2.2.2.1,
   (c8_error_envelopes none).2.2.2.2.2.2 418 (by decide)⟩

/-- The field list of a well-formed create body, used by witnesses. -/
def sampleBody : List (String × JVal) := [("title", .jstr "water"), ("recipe", sampleIngredient)]

/-- C3: a valid POST /drinks payload stores the input ingredient wrapped
into a single-element list, and responds success:true with drinks a
one-element array whose recipe is that single-element list. -/
theorem c3_create_wraps_recipe (st : DB) (fields rfs : List (String × JVal))
    (htitle : pyTruthy (dictGet fields "title") = true)
    (hrec : dictGet fields "recipe" = .jobj rfs)
    (hn : (rfs.map (fun kv => kv.1)).contains "name" = true)
    (hc : (rfs.map (fun kv => kv.1)).contains "color" = true)
    (hp : (rfs.map (fun kv => kv.1)).contains "parts" = true)
    (hv : ∀ kv ∈ rfs, pyTruthy kv.2 = true)
    (hfresh : st.rows.any (fun r => r.title == dictGet fields "title") = false) :
    create_drink (some (.jobj fields)) st =
      (⟨st.rows ++ [⟨st.nextId, dictGet fields "title", .jarr [.jobj rfs]⟩], st.nextId + 1⟩,
       .ok (.jobj [("success", .jbool true),
         ("drinks", .jarr [.jobj [("id", .jnum (st.nextId : Int)),
           ("title", dictGet fields "title"), ("recipe", .jarr [.jobj rfs])]])])) :=
  create_drink_success st fields rfs htitle hrec hn hc hp hv hfresh

/-- Witness for C3: creating the sample drink on the empty database. -/
theorem c3_create_wraps_recipe_witness :
    create_drink (some (.jobj sampleBody)) emptyDB =
      (⟨emptyDB.rows ++ [⟨emptyDB.nextId, dictGet sampleBody "title",
          .jarr [.jobj sampleIngredientFields]⟩], emptyDB.nextId + 1⟩,
       .ok (.jobj [("success", .jbool true),
         ("drinks", .jarr [.jobj [("id", .jnum (emptyDB.nextId : Int)),
           ("title", dictGet sampleBody "title"),
           ("recipe", .jarr [.jobj sampleIngredientFields])]])])) :=
  c3_create_wraps_recipe emptyDB sampleBody sampleIngredientFields
    (by decide) (by decide) (by decide) (by decide) (by decide) (by decide) (by decide)

/-- C5: two POST /drinks requests with the same title: the first succeeds
and its row is stored; the second fails 400 with the duplicate message
and leaves the table exactly as the first request left it. -/
theorem c5_duplicate_title (st : DB) (fields1 fields2 rfs1 rfs2 : List (String × JVal))
    (htitle1 : pyTruthy (dictGet fields1 "title") = true)
    (hrec1 : dictGet fields1 "recipe" = .jobj rfs1)
    (hn1 : (rfs1.map (fun kv => kv.1)).contains "name" = true)
    (hc1 : (rfs1.map (fun kv => kv.1)).contains "color" = true)
    (hp1 : (rfs1.map (fun kv => kv.1)).contains "parts" = true)
    (hv1 : ∀ kv ∈ rfs1, pyTruthy kv.2 = true)
    (hfresh : st.rows.any (fun r => r.title == dictGet fields1 "title") = false)
    (hsame : dictGet fields2 "title" = dictGet fields1 "title")
    (hrec2 : dictGet fields2 "recipe" = .jobj rfs2)
    (hn2 : (rfs2.map (fun kv => kv.1)).contains "name" = true)
    (hc2 : (rfs2.map (fun kv => kv.1)).contains "color" = true)
    (hp2 : (rfs2.map (fun kv => kv.1)).contains "parts" = true)
    (hv2 : ∀ kv ∈ rfs2, pyTruthy kv.2 = true) :
    (create_drink (some (.jobj fields1)) st).1.rows =
      st.rows ++ [⟨st.nextId, dictGet fields1 "title", .jarr [.jobj rfs1]⟩] ∧
    create_drink (some (.jobj fields2)) (create_drink (some (.jobj fields1)) st).1 =
      ((create_drink (some (.jobj fields1)) st).1,
       .fail 400 (some "Drink may already exist")) := by
  have h1 := create_drink_success st fields1 rfs1 htitle1 hrec1 hn1 hc1 hp1 hv1 hfresh
  refine ⟨by rw [h1], ?_⟩
  rw [h1]
  have htitle2 : pyTruthy (dictGet fields2 "title") = true := by
    rw [hsame]
    exact htitle1
  have hne2 : rfs2 ≠ [] := by
    intro h
    subst h
    simp at hn2
  have htr2 : pyTruthy (JVal.jobj rfs2) = true := by
    simp [pyTruthy, hne2]
  simp only [create_drink, hrec2, htitle2, htr2, recipeCheck_valid rfs2 hn2 hc2 hp2 hv2,
    Bool.not_true, Bool.false_eq_true, if_false]
  have hdup : ((⟨st.rows ++ [⟨st.nextId, dictGet fields1 "title", .jarr [.jobj rfs1]⟩],
      st.nextId + 1⟩ : DB)).rows.any (fun r => r.title == dictGet fields2 "title") = true := by
    simp [hsame]
  simp [DB.insertDrink, hdup]

/-- Witness for C5: creating the sample drink twice on the empty
database. -/
theorem c5_duplicate_title_witness :
    (create_drink (some (.jobj sampleBody)) emptyDB).1.rows =
      emptyDB.rows ++ [⟨emptyDB.nextId, dictGet sampleBody "title",
        .jarr [.jobj sampleIngredientFields]⟩] ∧
    create_drink (some (.jobj sampleBody)) (create_drink (some (.jobj sampleBody)) emptyDB).1 =
      ((create_drink (some (.jobj sampleBody)) emptyDB).1,
       .fail 400 (some "Drink may already exist")) :=
  c5_duplicate_title emptyDB sampleBody sampleBody sampleIngredientFields sampleIngredientFields
    (by decide) (by decide) (by decide) (by decide) (by decide) (by decide) (by decide)
    (by decide) (by decide) (by decide) (by decide) (by decide) (by decide)

/-- C4: a supplied falsy field is rejected with a 400 naming the field:
in create, a falsy (or missing) `title` or `recipe` aborts with the
missing-field message; in update, a supplied falsy `title` or `recipe`
aborts with the value-required message; in both, a recipe sub-field with
a falsy value — in particular `parts` equal to 0 — aborts naming that
sub-field. -/
theorem c4_falsy_fields_rejected :
    (∀ (st : DB) (fields : List (String × JVal)),
      pyTruthy (dictGet fields "title") = false →
      create_drink (some (.jobj fields)) st =
        (st, .fail 400 (some "Missing required field: title"))) ∧
    (∀ (st : DB) (fields : List (String × JVal)),
      pyTruthy (dictGet fields "title") = true →
      pyTruthy (dictGet fields "recipe") = false →
      create_drink (some (.jobj fields)) st =
        (st, .fail 400 (some "Missing required field: recipe"))) ∧
    (∀ (st : DB) (i : Nat) (fields : List (String × JVal)),
      dictHas fields "title" = true →
      pyTruthy (dictGet fields "title") = false →
      update_drink (some (.jobj fields)) i st =
        (st, .fail 400 (some "A value is required for field: title"))) ∧
    (∀ (st : DB) (i : Nat) (fields : List (String × JVal)),
      fieldPresenceCheck (.jobj fields) "title" = none →
      dictHas fields "recipe" = true →
      pyTruthy (dictGet fields "recipe") = false →
      update_drink (some (.jobj fields)) i st =
        (st, .fail 400 (some "A value is required for field: recipe"))) ∧
    (∀ name color : JVal,
      pyTruthy name = true → pyTruthy color = true →
      recipeCheck (.jobj [("name", name), ("color", color), ("parts", .jnum 0)]) =
        some (.fail 400 (some "Missing required recipe field: parts"))) ∧
    (∀ (st : DB) (fields : List (String × JVal)) (name color : JVal),
      pyTruthy (dictGet fields "title") = true →
      dictGet fields "recipe" = .jobj [("name", name), ("color", color), ("parts", .jnum 0)] →
      pyTruthy name = true → pyTruthy color = true →
      create_drink (some (.jobj fields)) st =
        (st, .fail 400 (some "Missing required recipe field: parts"))) := by
  refine ⟨?_, ?_, ?_, ?_, ?_, ?_⟩
  · intro st fields h
    simp [create_drink, h]
  · intro st fields h1 h2
    simp [create_drink, h1, h2]
  · intro st i fields h1 h2
    simp [update_drink, fieldPresenceCheck, pyContains, h1, h2]
  · intro st i fields ht h1 h2
    simp only [update_drink, ht]
    simp [fieldPresenceCheck, pyContains, h1, h2]
  · intro name color h1 h2
    simp [recipeCheck, pyIterStrings, pyItems, requiredRecipeFields, List.filter,
      List.find?, h1, h2, show pyTruthy (.jnum 0) = false from rfl]
  · intro st fields name color htitle hrec h1 h2
    have hrc : recipeCheck (.jobj [("name", name), ("color", color), ("parts", .jnum 0)]) =
        some (.fail 400 (some "Missing required recipe field: parts")) := by
      simp [recipeCheck, pyIterStrings, pyItems, requiredRecipeFields, List.filter,
        List.find?, h1, h2, show pyTruthy (.jnum 0) = false from rfl]
    have htr : pyTruthy (JVal.jobj [("name", name), ("color", color), ("parts", .jnum 0)]) =
        true := rfl
    simp [create_drink, htitle, hrec, hrc, htr]

/-- Witness for C4: each conjunct at a concrete input — empty-string
title, empty-list recipe, zero title on PATCH, null recipe on PATCH, and
an ingredient with `parts` equal to 0 on both the shared check and the
create handler. -/
theorem c4_falsy_fields_rejected_witness :
    create_drink (some (.jobj [("title", .jstr ""), ("recipe", sampleIngredient)])) emptyDB =
      (emptyDB, .fail 400 (some "Missing required field: title")) ∧
    create_drink (some (.jobj [("title", .jstr "x"), ("recipe", .jarr [])])) emptyDB =
      (emptyDB, .fail 400 (some "Missing required field: recipe")) ∧
    update_drink (some (.jobj [("title", .jnum 0)])) 1 sampleDB =
      (sampleDB, .fail 400 (some "A value is required for field: title")) ∧
    update_drink (some (.jobj [("recipe", .jnull)])) 1 sampleDB =
      (sampleDB, .fail 400 (some "A value is required for field: recipe")) ∧
    recipeCheck (.jobj [("name", .jstr "water"), ("color", .jstr "blue"), ("parts", .jnum 0)]) =
      some (.fail 400 (some "Missing required recipe field: parts")) ∧
    create_drink (some (.jobj [("title", .jstr "x"),
        ("recipe", .jobj [("name", .jstr "water"), ("color", .jstr "blue"),
          ("parts", .jnum 0)])])) emptyDB =
      (emptyDB, .fail 400 (some "Missing required recipe field: parts")) :=
  ⟨c4_falsy_fields_rejected.1 emptyDB _ (by decide),
   c4_falsy_fields_rejected.2.1 emptyDB _ (by decide) (by decide),
   c4_falsy_fields_rejected.2.2.1 sampleDB 1 _ (by decide) (by decide),
   c4_falsy_fields_rejected.2.2.2.1 sampleDB 1 _ (by decide) (by decide) (by decide),
   c4_falsy_fields_rejected.2.2.2.2.1 (.jstr "water") (.jstr "blue") (by decide) (by decide),
   c4_falsy_fields_rejected.2.2.2.2.2 emptyDB _ (.jstr "water") (.jstr "blue")
     (by decide) (by decide) (by decide) (by decide)⟩

/-- The sample stored row of `sampleDB`. -/
def sampleDrink : Drink := ⟨1, .jstr "water", .jarr [sampleIngredient]⟩

/-- A second well-formed ingredient field list, used by update
witnesses. -/
def newIngredientFields : List (String × JVal) :=
  [("name", .jstr "milk"), ("color", .jstr "white"), ("parts", .jnum 2)]

/-- C6: PATCH of an existing drink replaces only the supplied fields: an
omitted `title` leaves the stored title unchanged while a valid `recipe`
is replaced; a supplied empty-string `title` yields 400 with the table
unchanged; a supplied truthy `title` with omitted `recipe` replaces the
title and leaves the stored recipe unchanged. -/
theorem c6_partial_update :
    (∀ (st : DB) (i : Nat) (d : Drink) (fields rfs : List (String × JVal)),
      st.findDrink i = some d →
      dictHas fields "title" = false →
      dictHas fields "recipe" = true →
      dictGet fields "recipe" = .jobj rfs →
      (rfs.map (fun kv => kv.1)).contains "name" = true →
      (rfs.map (fun kv => kv.1)).contains "color" = true →
      (rfs.map (fun kv => kv.1)).contains "parts" = true →
      (∀ kv ∈ rfs, pyTruthy kv.2 = true) →
      st.rows.any (fun r => r.id != d.id && r.title == d.title) = false →
      update_drink (some (.jobj fields)) i st =
        ({ st with rows := st.rows.map (fun r =>
            if r.id == d.id then { d with recipe := .jobj rfs } else r) },
         .ok (.jobj [("success", .jbool true), ("drinks", .jarr [.jobj
           [("id", .jnum (d.id : Int)), ("title", d.title), ("recipe", .jobj rfs)]])]))) ∧
    (∀ (st : DB) (i : Nat) (fields : List (String × JVal)),
      dictHas fields "title" = true →
      dictGet fields "title" = .jstr "" →
      update_drink (some (.jobj fields)) i st =
        (st, .fail 400 (some "A value is required for field: title"))) ∧
    (∀ (st : DB) (i : Nat) (d : Drink) (fields : List (String × JVal)) (t : JVal),
      st.findDrink i = some d →
      dictHas fields "title" = true →
      dictGet fields "title" = t →
      pyTruthy t = true →
      dictHas fields "recipe" = false →
      st.rows.any (fun r => r.id != d.id && r.title == t) = false →
      update_drink (some (.jobj fields)) i st =
        ({ st with rows := st.rows.map (fun r =>
            if r.id == d.id then { d with title := t } else r) },
         .ok (.jobj [("success", .jbool true), ("drinks", .jarr [.jobj
           [("id", .jnum (d.id : Int)), ("title", t), ("recipe", d.recipe)]])]))) := by
  refine ⟨?_, ?_, ?_⟩
  · intro st i d fields rfs hfind hdt hdr hrec hn hc hp hv huniq
    have ht : fieldPresenceCheck (.jobj fields) "title" = none := by
      simp [fieldPresenceCheck, pyContains, hdt]
    have hne : rfs ≠ [] := by
      intro h
      subst h
      simp at hn
    have htr : pyTruthy (dictGet fields "recipe") = true := by
      rw [hrec]
      simp [pyTruthy, hne]
    have hr : fieldPresenceCheck (.jobj fields) "recipe" = none := by
      simp [fieldPresenceCheck, pyContains, hdr, htr]
    have hrc : dictHas fields "recipe" = true → recipeCheck (dictGet fields "recipe") = none := by
      intro _
      rw [hrec]
      exact recipeCheck_valid rfs hn hc hp hv
    have hap : applyPatch d fields = { d with recipe := .jobj rfs } := by
      simp [applyPatch, hdt, hdr, hrec]
    have hcommit : st.rows.any (fun r => r.id != (applyPatch d fields).id &&
        r.title == (applyPatch d fields).title) = false := by
      rw [hap]
      exact huniq
    have h := update_drink_success st i d fields hfind ht hr hrc hcommit
    rw [hap] at h
    simpa [Drink.long] using h
  · intro st i fields h1 h2
    simp [update_drink, fieldPresenceCheck, pyContains, h1, h2, pyTruthy,
      show ("" : String).isEmpty = true from rfl]
  · intro st i d fields t hfind hdt hgt htt hdr huniq
    have ht : fieldPresenceCheck (.jobj fields) "title" = none := by
      simp [fieldPresenceCheck, pyContains, hdt, hgt, htt]
    have hr : fieldPresenceCheck (.jobj fields) "recipe" = none := by
      simp [fieldPresenceCheck, pyContains, hdr]
    have hrc : dictHas fields "recipe" = true → recipeCheck (dictGet fields "recipe") = none := by
      intro h
      rw [hdr] at h
      cases h
    have hap : applyPatch d fields = { d with title := t } := by
      simp [applyPatch, hdt, hdr, hgt]
    have hcommit : st.rows.any (fun r => r.id != (applyPatch d fields).id &&
        r.title == (applyPatch d fields).title) = false := by
      rw [hap]
      exact huniq
    have h := update_drink_success st i d fields hfind ht hr hrc hcommit
    rw [hap] at h
    simpa [Drink.long] using h

/-- Witness for C6 at the one-row database: recipe-only PATCH keeps the
title, empty-string title PATCH gives 400 unchanged, title-only PATCH
keeps the recipe. -/
theorem c6_partial_update_witness :
    update_drink (some (.jobj [("recipe", .jobj newIngredientFields)])) 1 sampleDB =
      ({ sampleDB with rows := sampleDB.rows.map (fun r =>
          if r.id == sampleDrink.id then { sampleDrink with recipe := .jobj newIngredientFields }
          else r) },
       .ok (.jobj [("success", .jbool true), ("drinks", .jarr [.jobj
         [("id", .jnum (sampleDrink.id : Int)), ("title", sampleDrink.title),
          ("recipe", .jobj newIngredientFields)]])])) ∧
    update_drink (some (.jobj [("title", .jstr "")])) 1 sampleDB =
      (sampleDB, .fail 400 (some "A value is required for field: title")) ∧
    update_drink (some (.jobj [("title", .jstr "tea")])) 1 sampleDB =
      ({ sampleDB with rows := sampleDB.rows.map (fun r =>
          if r.id == sampleDrink.id then { sampleDrink with title := .jstr "tea" } else r) },
       .ok (.jobj [("success", .jbool true), ("drinks", .jarr [.jobj
         [("id", .jnum (sampleDrink.id : Int)), ("title", .jstr "tea"),
          ("recipe", sampleDrink.recipe)]])])) :=
  ⟨c6_partial_update.1 sampleDB 1 sampleDrink _ newIngredientFields (by decide) (by decide)
     (by decide) (by decide) (by decide) (by decide) (by decide) (by decide) (by decide),
   c6_partial_update.2.1 sampleDB 1 _ (by decide) (by decide),
   c6_partial_update.2.2 sampleDB 1 sampleDrink _ (.jstr "tea") (by decide) (by decide)
     (by decide) (by decide) (by decide) (by decide)⟩

/-- C9: a recipe that passes validation is persisted by PATCH exactly as
supplied (not wrapped), while the same object supplied to POST is
persisted wrapped into a single-element list. -/
theorem c9_patch_stores_recipe_unwrapped :
    (∀ (st : DB) (i : Nat) (d : Drink) (fields rfs : List (String × JVal)),
      st.findDrink i = some d →
      dictHas fields "title" = false →
      dictHas fields "recipe" = true →
      dictGet fields "recipe" = .jobj rfs →
      (rfs.map (fun kv => kv.1)).contains "name" = true →
      (rfs.map (fun kv => kv.1)).contains "color" = true →
      (rfs.map (fun kv => kv.1)).contains "parts" = true →
      (∀ kv ∈ rfs, pyTruthy kv.2 = true) →
      st.rows.any (fun r => r.id != d.id && r.title == d.title) = false →
      (update_drink (some (.jobj fields)) i st).1.rows =
        st.rows.map (fun r => if r.id == d.id then { d with recipe := .jobj rfs } else r)) ∧
    (∀ (st : DB) (fields rfs : List (String × JVal)),
      pyTruthy (dictGet fields "title") = true →
      dictGet fields "recipe" = .jobj rfs →
      (rfs.map (fun kv => kv.1)).contains "name" = true →
      (rfs.map (fun kv => kv.1)).contains "color" = true →
      (rfs.map (fun kv => kv.1)).contains "parts" = true →
      (∀ kv ∈ rfs, pyTruthy kv.2 = true) →
      st.rows.any (fun r => r.title == dictGet fields "title") = false →
      (create_drink (some (.jobj fields)) st).1.rows =
        st.rows ++ [⟨st.nextId, dictGet fields "title", .jarr [.jobj rfs]⟩]) := by
  constructor
  · intro st i d fields rfs hfind hdt hdr hrec hn hc hp hv huniq
    have ht : fieldPresenceCheck (.jobj fields) "title" = none := by
      simp [fieldPresenceCheck, pyContains, hdt]
    have hne : rfs ≠ [] := by
      intro h
      subst h
      simp at hn
    have htr : pyTruthy (dictGet fields "recipe") = true := by
      rw [hrec]
      simp [pyTruthy, hne]
    have hr : fieldPresenceCheck (.jobj fields) "recipe" = none := by
      simp [fieldPresenceCheck, pyContains, hdr, htr]
    have hrc : dictHas fields "recipe" = true → recipeCheck (dictGet fields "recipe") = none := by
      intro _
      rw [hrec]
      exact recipeCheck_valid rfs hn hc hp hv
    have hap : applyPatch d fields = { d with recipe := .jobj rfs } := by
      simp [applyPatch, hdt, hdr, hrec]
    have hcommit : st.rows.any (fun r => r.id != (applyPatch d fields).id &&
        r.title == (applyPatch d fields).title) = false := by
      rw [hap]
      exact huniq
    have h := update_drink_success st i d fields hfind ht hr hrc hcommit
    rw [hap] at h
    rw [h]
  · intro st fields rfs htitle hrec hn hc hp hv hfresh
    rw [create_drink_success st fields rfs htitle hrec hn hc hp hv hfresh]

/-- Witness for C9: PATCH of drink 1 with an ingredient object stores it
unwrapped; POST of a fresh drink with an ingredient object stores it
wrapped in a single-element list. -/
theorem c9_patch_stores_recipe_unwrapped_witness :
    (update_drink (some (.jobj [("recipe", .jobj newIngredientFields)])) 1 sampleDB).1.rows =
      sampleDB.rows.map (fun r =>
        if r.id == sampleDrink.id then { sampleDrink with recipe := .jobj newIngredientFields }
        else r) ∧
    (create_drink (some (.jobj [("title", .jstr "mocha"),
        ("recipe", .jobj newIngredientFields)])) sampleDB).1.rows =
      sampleDB.rows ++ [⟨sampleDB.nextId,
        dictGet [("title", .jstr "mocha"), ("recipe", .jobj newIngredientFields)] "title",
        .jarr [.jobj newIngredientFields]⟩] :=
  ⟨c9_patch_stores_recipe_unwrapped.1 sampleDB 1 sampleDrink _ newIngredientFields (by decide)
     (by decide) (by decide) (by decide) (by decide) (by decide) (by decide) (by decide)
     (by decide),
   c9_patch_stores_recipe_unwrapped.2 sampleDB _ newIngredientFields (by decide) (by decide)
     (by decide) (by decide) (by decide) (by decide) (by decide)⟩
